import Mathlib

/-!
# Verification of the `Sim` projectile simulator (`src/sim.py`)

Shallow embedding of the physics/control core of the repository: the `Body`
kinematic state and integrator, the PID `Controller`, the `net_accel` force
model and the `Simulator.run` loop.  Python floats are modelled as exact
rationals (`ℚ`); the trigonometric functions `math.cos`/`math.sin` (applied
by the source to `angle / (180/π)`, i.e. to the heading in radians) are
abstracted as a pair of functions taking the heading in degrees, since the
degree→radian conversion is irrational.  All state mutation of the Python
classes is modelled by explicit state passing.
-/

namespace Sim

/-- A 2-vector of rationals (used for `target`, `xy_force`, `wind`, errors). -/
structure Vec2 where
  x : ℚ
  y : ℚ
deriving DecidableEq, Repr

/-- A 3-vector of rationals (used for `position`, `velocity`, `drag`). -/
structure Vec3 where
  x : ℚ
  y : ℚ
  z : ℚ
deriving DecidableEq, Repr

/-- The 4-tuple `(x_accel, y_accel, z_accel, angular_accel)` returned by
`net_accel` in the source. -/
structure Accel4 where
  x : ℚ
  y : ℚ
  z : ℚ
  ang : ℚ
deriving DecidableEq, Repr

/-- Abstraction of the trigonometric primitives.  `cosd θ` stands for the
Python expression `math.cos(θ/convert)` with `convert = 180/math.pi`, i.e.
the cosine of the heading `θ` given in degrees; likewise `sind`. -/
structure Trig where
  cosd : ℚ → ℚ
  sind : ℚ → ℚ

/-- The `Controller` class: PID gains and saturation limits
(source `Controller.__init__`, body back-reference modelled by passing the
`Body` explicitly to the correction operations). -/
structure Controller where
  force_lim : ℚ
  angle_force_lim : ℚ
  p : ℚ
  i : ℚ
  d : ℚ
  ang_p : ℚ
  ang_i : ℚ
  ang_d : ℚ
deriving DecidableEq, Repr

/-- Source `Controller.__init__(self, body)`: every controller is constructed with
these fixed constants; no constructor parameter can change them. -/
def mkController : Controller :=
  Controller.mk 50 10 15 (15/100) 5 2 (1/1000) (2/10)

/-- The `Body` class: constants, kinematic state, error state and commanded
forces (source `Body.__init__`). -/
structure Body where
  mass : ℚ
  radius : ℚ
  drag : Vec3
  target : Vec2
  target_vel : Vec2
  target_angle_vel : ℚ
  controller : Controller
  position : Vec3
  velocity : Vec3
  angle : ℚ
  angle_vel : ℚ
  pos_error : Vec2
  vel_error : Vec2
  ang_error : ℚ
  ang_vel_error : ℚ
  xy_force : Vec2
  angle_force : ℚ
deriving DecidableEq, Repr

/-- Source `Body.__init__(mass, radius, position, velocity, angle, angle_vel, drag,
target, xy_force, angle_force)`: the error fields start at `0`, the velocity
targets are fixed at zero, and the controller is always `Controller(self)`,
i.e. `mkController`. -/
def mkBody (mass radius : ℚ) (position velocity : Vec3) (angle angle_vel : ℚ)
    (drag : Vec3) (target : Vec2) (xy_force : Vec2) (angle_force : ℚ) : Body where
  mass := mass
  radius := radius
  drag := drag
  target := target
  target_vel := Vec2.mk 0 0
  target_angle_vel := 0
  controller := mkController
  position := position
  velocity := velocity
  angle := angle
  angle_vel := angle_vel
  pos_error := Vec2.mk 0 0
  vel_error := Vec2.mk 0 0
  ang_error := 0
  ang_vel_error := 0
  xy_force := xy_force
  angle_force := angle_force

/-- The `Body` produced by the Python default arguments
`Body()` (mass 1, radius 0.05, position (0,0,122), everything else zero). -/
def bodyDefault : Body :=
  mkBody 1 (1/20) (Vec3.mk 0 0 122) (Vec3.mk 0 0 0) 0 0 (Vec3.mk 0 0 0)
    (Vec2.mk 0 0) (Vec2.mk 0 0) 0

/-- Python's float modulo `a % m` for a positive modulus `m`:
`a - m * floor (a / m)` (exact-arithmetic semantics). -/
def pymod (a m : ℚ) : ℚ := a - m * (⌊a / m⌋ : ℤ)

/-- Source `Body.step(self, net_accel, time_step=0.01)`: semi-implicit Euler —
each axis updates velocity first and then position with the *updated*
velocity; then the angular pair, and the heading is wrapped by
`angle % 360` followed by `if angle < 0: angle += 360`. -/
def Body.step (b : Body) (net_accel : Accel4) (time_step : ℚ) : Body :=
  let vx := b.velocity.x + net_accel.x * time_step
  let px := b.position.x + vx * time_step
  let vy := b.velocity.y + net_accel.y * time_step
  let py := b.position.y + vy * time_step
  let vz := b.velocity.z + net_accel.z * time_step
  let pz := b.position.z + vz * time_step
  let av := b.angle_vel + net_accel.ang * time_step
  let a1 := b.angle + av * time_step
  let a2 := pymod a1 360
  let a3 := if a2 < 0 then a2 + 360 else a2
  { b with
    position := Vec3.mk px py pz
    velocity := Vec3.mk vx vy vz
    angle := a3
    angle_vel := av }

/-- Source `Body.update_pos_error`: `zip(position, target)` pairs only the x and y
components (the 3-element position against the 2-element target). -/
def Body.update_pos_error (b : Body) : Body :=
  { b with pos_error := Vec2.mk (b.position.x - b.target.x) (b.position.y - b.target.y) }

/-- Source `Body.update_vel_error`. -/
def Body.update_vel_error (b : Body) : Body :=
  { b with vel_error := Vec2.mk (b.velocity.x - b.target_vel.x) (b.velocity.y - b.target_vel.y) }

/-- Source `Body.update_angle_error`: `ang_error = angle`, then subtract 360 if it
exceeds 180. -/
def Body.update_angle_error (b : Body) : Body :=
  let e := b.angle
  { b with ang_error := if e > 180 then e - 360 else e }

/-- Source `Body.update_ang_vel_error`. -/
def Body.update_ang_vel_error (b : Body) : Body :=
  { b with ang_vel_error := b.angle_vel - b.target_angle_vel }

/-- Source `Controller.correct_xy(integral_x, integral_y)`: PID terms
`pos_error * -p + velocity * -d + integral * -i` per axis, clamped to the
symmetric band `[-force_lim, force_lim]`, written to `body.xy_force`. -/
def Controller.correct_xy (c : Controller) (b : Body) (integral_x integral_y : ℚ) : Body :=
  let force_x0 := b.pos_error.x * -c.p + b.velocity.x * -c.d + integral_x * -c.i
  let force_y0 := b.pos_error.y * -c.p + b.velocity.y * -c.d + integral_y * -c.i
  let force_x := if force_x0 > c.force_lim then c.force_lim
    else if force_x0 < -c.force_lim then -c.force_lim else force_x0
  let force_y := if force_y0 > c.force_lim then c.force_lim
    else if force_y0 < -c.force_lim then -c.force_lim else force_y0
  { b with xy_force := Vec2.mk force_x force_y }

/-- Source `Controller.correct_angle(integral_ang)`: angular PID term clamped to
`[-angle_force_lim, angle_force_lim]`, written to `body.angle_force`. -/
def Controller.correct_angle (c : Controller) (b : Body) (integral_ang : ℚ) : Body :=
  let f0 := b.ang_error * -c.ang_p + b.ang_vel_error * -c.ang_d + integral_ang * -c.ang_i
  let f := if f0 > c.angle_force_lim then c.angle_force_lim
    else if f0 < -c.angle_force_lim then -c.angle_force_lim else f0
  { b with angle_force := f }

/-- The `Simulator` class: configuration plus the recorded time-series
(source `Simulator.__init__`); `debug` only gates a `print` in the source. -/
structure Simulator where
  debug : Bool
  body : Body
  time_step : ℚ
  step_count : ℕ
  wind : Vec2
  time : List ℚ
  x_pos : List ℚ
  y_pos : List ℚ
  z_pos : List ℚ
  x_vel : List ℚ
  y_vel : List ℚ
  z_vel : List ℚ
  x_accel : List ℚ
  y_accel : List ℚ
  z_accel : List ℚ
  angle : List ℚ
  angle_vel : List ℚ
  angle_accel : List ℚ
deriving DecidableEq, Repr

/-- Source `Simulator.__init__(body, wind_accel, time_step=0.01, debug=False)`:
`step_count` starts at 0 and every recorded series starts empty. -/
def mkSimulator (body : Body) (wind_accel : Vec2) (time_step : ℚ) (debug : Bool) : Simulator where
  debug := debug
  body := body
  time_step := time_step
  step_count := 0
  wind := wind_accel
  time := []
  x_pos := []
  y_pos := []
  z_pos := []
  x_vel := []
  y_vel := []
  z_vel := []
  x_accel := []
  y_accel := []
  z_accel := []
  angle := []
  angle_vel := []
  angle_accel := []

/-- Source `net_accel(body, sim)`: the force model.  `gravity = -9.81`,
`body_moi = 1/2 * mass * radius**2`, drag terms use the signed square of the
velocity, and the commanded planar force is rotated by the heading
(`t.cosd`/`t.sind` abstract `math.cos`/`math.sin` of the heading in
radians, see `Trig`). -/
def net_accel (t : Trig) (body : Body) (sim : Simulator) : Accel4 :=
  let gravity : ℚ := -(981/100)
  let body_moi := 1/2 * body.mass * body.radius ^ 2
  let x_accel := body.drag.x * body.velocity.x ^ 2 + sim.wind.x
    + body.xy_force.x * t.cosd body.angle + body.xy_force.y * t.sind body.angle
  let y_accel := body.drag.y * body.velocity.y ^ 2 + sim.wind.y
    + body.xy_force.y * t.cosd body.angle + body.xy_force.x * t.sind body.angle
  let z_accel := gravity * body.mass + body.drag.z * body.velocity.z ^ 2
  let torque := body.angle_force
  Accel4.mk (x_accel / body.mass) (y_accel / body.mass) (z_accel / body.mass)
    (torque / body_moi)

/-- The state of one `Simulator.run` invocation: the simulator object plus
the three integral accumulators that are local variables of `run`. -/
structure RunState where
  sim : Simulator
  integral_x : ℚ
  integral_y : ℚ
  integral_ang : ℚ
deriving DecidableEq, Repr

/-- The accumulator policy of `Simulator.run` (applied identically to
`integral_x`, `integral_y` and `integral_ang`): if the signed error is `< 1`
it is added to the accumulator, otherwise the accumulator resets to `0`. -/
def integral_update (acc err : ℚ) : ℚ := if err < 1 then acc + err else 0

/-- One iteration of the `while` loop in `Simulator.run`: compute the net
acceleration, call `self.body.step(body_accel)` — note the source passes no
`time_step`, so `step` runs with its *default* `dt = 0.01` regardless of
`self.time_step` — increment `step_count`, recompute the four error
quantities, run the controller (guarded by the always-true
`step_count % 1 == 0`), update the three integral accumulators, and append
one sample to every recorded series. -/
def tick (t : Trig) (s : RunState) : RunState :=
  let body_accel := net_accel t s.sim.body s.sim
  let b1 := s.sim.body.step body_accel (1/100)
  let step_count := s.sim.step_count + 1
  let b2 := b1.update_pos_error
  let b3 := b2.update_vel_error
  let b4 := b3.update_angle_error
  let b5 := b4.update_ang_vel_error
  let b6 := if step_count % 1 = 0 then
      let ba := b5.controller.correct_angle b5 s.integral_ang
      ba.controller.correct_xy ba s.integral_x s.integral_y
    else b5
  let integral_x := integral_update s.integral_x b6.pos_error.x
  let integral_y := integral_update s.integral_y b6.pos_error.y
  let integral_ang := integral_update s.integral_ang b6.ang_error
  let sim := { s.sim with
    body := b6
    step_count := step_count
    time := s.sim.time ++ [s.sim.time_step * (step_count : ℚ)]
    x_pos := s.sim.x_pos ++ [b6.position.x]
    y_pos := s.sim.y_pos ++ [b6.position.y]
    z_pos := s.sim.z_pos ++ [b6.position.z]
    x_vel := s.sim.x_vel ++ [b6.velocity.x]
    y_vel := s.sim.y_vel ++ [b6.velocity.y]
    z_vel := s.sim.z_vel ++ [b6.velocity.z]
    x_accel := s.sim.x_accel ++ [body_accel.x]
    y_accel := s.sim.y_accel ++ [body_accel.y]
    z_accel := s.sim.z_accel ++ [body_accel.z]
    angle := s.sim.angle ++ [b6.angle]
    angle_vel := s.sim.angle_vel ++ [b6.angle_vel]
    angle_accel := s.sim.angle_accel ++ [body_accel.ang] }
  RunState.mk sim integral_x integral_y integral_ang

/-- Fuel-indexed unfolding of the `while self.body.position[2] > 0` loop of
`Simulator.run`: with enough fuel this is exactly the source loop. -/
def runFuel (t : Trig) : ℕ → RunState → RunState
  | 0, s => s
  | fuel + 1, s => if s.sim.body.position.z > 0 then runFuel t fuel (tick t s) else s

/-- Source `Simulator.run()`: the integral accumulators start at `0`; the loop body
is `tick`, iterated while the altitude is positive (bounded by `fuel`). -/
def Simulator.run (t : Trig) (fuel : ℕ) (sim : Simulator) : RunState :=
  runFuel t fuel (RunState.mk sim 0 0 0)

/-- A concrete instantiation of the trig abstraction (the exact values are
irrelevant to the claims evaluated with it; the z axis and the loop count do
not depend on `cosd`/`sind`). -/
def trig0 : Trig := Trig.mk (fun _ => 1) (fun _ => 0)

/-- Projection of one `tick` onto the vertical axis when `drag.z = 0` and
`mass = 1`: the semi-implicit Euler update of `(z, vz)` under gravity
`-9.81` with the step default `dt = 0.01` that `run` actually uses. -/
def zstep (p : ℚ × ℚ) : ℚ × ℚ :=
  (p.1 + (p.2 - 981/10000) * (1/100), p.2 - 981/10000)

/-- Little-endian-to-big-endian decimal digit rendering with explicit fuel
(the fuel `n + 1` always suffices). -/
def digitsAux : ℕ → ℕ → List Char
  | 0, _ => []
  | fuel + 1, n =>
    if n < 10 then [Nat.digitChar n]
    else digitsAux fuel (n / 10) ++ [Nat.digitChar (n % 10)]

/-- Decimal rendering of a natural number. -/
def natToStr (n : ℕ) : String := String.mk (digitsAux (n + 1) n)

/-- Round to the nearest integer, ties to even (the rounding Python's fixed
float formatting performs, on our exact-rational model of the values). -/
def roundHalfEven (q : ℚ) : ℤ :=
  let fl := ⌊q⌋
  if 2 * q < 2 * (fl : ℚ) + 1 then fl
  else if 2 * (fl : ℚ) + 1 < 2 * q then fl + 1
  else if fl % 2 = 0 then fl else fl + 1

/-- Fixed two-decimal rendering of a rational, as Python's `f"{x:0.2f}"`
renders a float: the sign is taken from the value (so `-0.001` renders as
`"-0.00"`), the magnitude is rounded to a whole number of hundredths. -/
def fmt2 (q : ℚ) : String :=
  let sign := if q < 0 then "-" else ""
  let cents := (roundHalfEven (|q| * 100)).toNat
  sign ++ natToStr (cents / 100) ++ "." ++
    String.mk [Nat.digitChar (cents / 10 % 10), Nat.digitChar (cents % 10)]

/-- A Python value handed to a format specifier: the reports format either a
float or (in the faulty `vel_error_report`) a whole list. -/
inductive PyVal where
  | num (q : ℚ)
  | list (xs : List ℚ)

/-- Python's `format(v, '0.2f')`: two-decimal fixed rendering for a float;
for a list the format call raises `TypeError` (`'0.2f'` is unsupported by
`list.__format__`), modelled as `none`. -/
def pyFormatFixed2 : PyVal → Option String
  | PyVal.num q => some (fmt2 q)
  | PyVal.list _ => none

/-- Source `Body.pos_report`: `f"pos({x:0.2f}, {y:0.2f}, {z:0.2f})"`. -/
def Body.pos_report (b : Body) : Option String :=
  (pyFormatFixed2 (PyVal.num b.position.x)).bind fun sx =>
  (pyFormatFixed2 (PyVal.num b.position.y)).bind fun sy =>
  (pyFormatFixed2 (PyVal.num b.position.z)).bind fun sz =>
  some ("pos(" ++ sx ++ ", " ++ sy ++ ", " ++ sz ++ ")")

/-- Source `Body.vel_report`. -/
def Body.vel_report (b : Body) : Option String :=
  (pyFormatFixed2 (PyVal.num b.velocity.x)).bind fun sx =>
  (pyFormatFixed2 (PyVal.num b.velocity.y)).bind fun sy =>
  (pyFormatFixed2 (PyVal.num b.velocity.z)).bind fun sz =>
  some ("vel(" ++ sx ++ ", " ++ sy ++ ", " ++ sz ++ ")")

/-- Source `Body.ang_report`. -/
def Body.ang_report (b : Body) : Option String :=
  (pyFormatFixed2 (PyVal.num b.angle)).bind fun s =>
  some ("angle(" ++ s ++ ")")

/-- Attribute lookup `self.ang_vel` on a `Body`: the class sets `angle_vel`
in `__init__` and never assigns `ang_vel` anywhere, so this lookup raises
`AttributeError` for every body, modelled as `none`. -/
def Body.attr_ang_vel (_b : Body) : Option ℚ := none

/-- Source `Body.ang_vel_report`: `f"ang_vel({self.ang_vel:0.2f})"` — the
attribute read `self.ang_vel` fails before any formatting happens (the
field is named `angle_vel`), so the helper raises for every body. -/
def Body.ang_vel_report (b : Body) : Option String :=
  (b.attr_ang_vel).bind fun v =>
  (pyFormatFixed2 (PyVal.num v)).bind fun s =>
  some ("ang_vel(" ++ s ++ ")")

/-- Source `Body.pos_error_report` (formats the two components). -/
def Body.pos_error_report (b : Body) : Option String :=
  (pyFormatFixed2 (PyVal.num b.pos_error.x)).bind fun sx =>
  (pyFormatFixed2 (PyVal.num b.pos_error.y)).bind fun sy =>
  some ("pos_error(" ++ sx ++ ", " ++ sy ++ ")")

/-- Source `Body.vel_error_report`: `f"vel_error({self.vel_error:0.2f})"` —
note the format target is the whole `vel_error` *list*, not a component, so
the format call raises `TypeError`. -/
def Body.vel_error_report (b : Body) : Option String :=
  (pyFormatFixed2 (PyVal.list [b.vel_error.x, b.vel_error.y])).bind fun s =>
  some ("vel_error(" ++ s ++ ")")

/-- Source `Body.ang_error_report`. -/
def Body.ang_error_report (b : Body) : Option String :=
  (pyFormatFixed2 (PyVal.num b.ang_error)).bind fun s =>
  some ("ang_error(" ++ s ++ ")")

/-- The saturation pattern of `Controller.correct_xy`/`correct_angle`:
values above the limit become the limit, values below its negation become
the negation, everything else passes through. -/
def clamp (v lim : ℚ) : ℚ :=
  if v > lim then lim else if v < -lim then -lim else v

/-- Python's modulo with a positive modulus never returns a negative value. -/
theorem pymod_nonneg (a m : ℚ) (hm : 0 < m) : 0 ≤ pymod a m := by
  have h1 : ((⌊a / m⌋ : ℚ)) ≤ a / m := Int.floor_le _
  rw [le_div_iff₀ hm] at h1
  unfold pymod
  nlinarith

/-- Python's modulo with a positive modulus stays below the modulus. -/
theorem pymod_lt (a m : ℚ) (hm : 0 < m) : pymod a m < m := by
  have h2 : a / m < ⌊a / m⌋ + 1 := Int.lt_floor_add_one _
  rw [div_lt_iff₀ hm] at h2
  unfold pymod
  nlinarith

/-- Closed description of `Body.step`: the `if angle < 0` adjustment after
the modulo never fires in exact arithmetic, so the heading is exactly
`pymod` of the incremented heading. -/
theorem Body.step_closed (b : Body) (na : Accel4) (dt : ℚ) :
    b.step na dt = { b with
      position := Vec3.mk
        (b.position.x + (b.velocity.x + na.x * dt) * dt)
        (b.position.y + (b.velocity.y + na.y * dt) * dt)
        (b.position.z + (b.velocity.z + na.z * dt) * dt)
      velocity := Vec3.mk
        (b.velocity.x + na.x * dt) (b.velocity.y + na.y * dt) (b.velocity.z + na.z * dt)
      angle := pymod (b.angle + (b.angle_vel + na.ang * dt) * dt) 360
      angle_vel := b.angle_vel + na.ang * dt } := by
  simp only [Body.step]
  rw [if_neg (not_lt.2 (pymod_nonneg _ _ (by norm_num)))]

/-- C2: for every body, wind and trig interpretation, `net_accel` returns
exactly the four accelerations of the spec: per-axis drag (signed square,
no sign restoration) plus wind plus the heading-rotated commanded forces
over the mass, gravity `-9.81` on the vertical axis, and the angular force
over the half-disk inertia `mass * radius^2 / 2`.  `net_accel` is a pure
function, hence deterministic and side-effect free. -/
theorem C2_net_accel_formula (t : Trig) (b : Body) (sim : Simulator) :
    net_accel t b sim = Accel4.mk
      ((b.drag.x * b.velocity.x ^ 2 + sim.wind.x
          + b.xy_force.x * t.cosd b.angle + b.xy_force.y * t.sind b.angle) / b.mass)
      ((b.drag.y * b.velocity.y ^ 2 + sim.wind.y
          + b.xy_force.y * t.cosd b.angle + b.xy_force.x * t.sind b.angle) / b.mass)
      ((-(981/100) * b.mass + b.drag.z * b.velocity.z ^ 2) / b.mass)
      (b.angle_force / (b.mass * b.radius ^ 2 / 2)) := by
  simp only [net_accel, Accel4.mk.injEq]
  refine ⟨trivial, trivial, trivial, ?_⟩
  ring_nf

/-- C3: `Body.step` is semi-implicit Euler — each linear axis updates the
velocity by `accel * dt` and then the position with the *updated* velocity;
the angular pair likewise, with the heading then wrapped modulo 360 into
`[0, 360)`.  The embedding is a total function, so no input raises. -/
theorem C3_step_semi_implicit_euler (b : Body) (na : Accel4) (dt : ℚ) (hdt : 0 < dt) :
    (b.step na dt).velocity.x = b.velocity.x + na.x * dt ∧
    (b.step na dt).velocity.y = b.velocity.y + na.y * dt ∧
    (b.step na dt).velocity.z = b.velocity.z + na.z * dt ∧
    (b.step na dt).position.x = b.position.x + (b.velocity.x + na.x * dt) * dt ∧
    (b.step na dt).position.y = b.position.y + (b.velocity.y + na.y * dt) * dt ∧
    (b.step na dt).position.z = b.position.z + (b.velocity.z + na.z * dt) * dt ∧
    (b.step na dt).angle_vel = b.angle_vel + na.ang * dt ∧
    (b.step na dt).angle = pymod (b.angle + (b.angle_vel + na.ang * dt) * dt) 360 ∧
    0 ≤ (b.step na dt).angle ∧ (b.step na dt).angle < 360 := by
  rw [Body.step_closed]
  exact ⟨rfl, rfl, rfl, rfl, rfl, rfl, rfl, rfl,
    pymod_nonneg _ _ (by norm_num), pymod_lt _ _ (by norm_num)⟩

/-- Witness for C3 at the concrete input `bodyDefault`, `na = (1,2,3,4)`,
`dt = 1`. -/
theorem C3_step_semi_implicit_euler_witness :
    (0:ℚ) < 1 ∧
    ((bodyDefault.step (Accel4.mk 1 2 3 4) 1).velocity.x = bodyDefault.velocity.x + 1 * 1 ∧
     (bodyDefault.step (Accel4.mk 1 2 3 4) 1).velocity.y = bodyDefault.velocity.y + 2 * 1 ∧
     (bodyDefault.step (Accel4.mk 1 2 3 4) 1).velocity.z = bodyDefault.velocity.z + 3 * 1 ∧
     (bodyDefault.step (Accel4.mk 1 2 3 4) 1).position.x
        = bodyDefault.position.x + (bodyDefault.velocity.x + 1 * 1) * 1 ∧
     (bodyDefault.step (Accel4.mk 1 2 3 4) 1).position.y
        = bodyDefault.position.y + (bodyDefault.velocity.y + 2 * 1) * 1 ∧
     (bodyDefault.step (Accel4.mk 1 2 3 4) 1).position.z
        = bodyDefault.position.z + (bodyDefault.velocity.z + 3 * 1) * 1 ∧
     (bodyDefault.step (Accel4.mk 1 2 3 4) 1).angle_vel = bodyDefault.angle_vel + 4 * 1 ∧
     (bodyDefault.step (Accel4.mk 1 2 3 4) 1).angle
        = pymod (bodyDefault.angle + (bodyDefault.angle_vel + 4 * 1) * 1) 360 ∧
     0 ≤ (bodyDefault.step (Accel4.mk 1 2 3 4) 1).angle ∧
     (bodyDefault.step (Accel4.mk 1 2 3 4) 1).angle < 360) :=
  ⟨by norm_num, C3_step_semi_implicit_euler bodyDefault (Accel4.mk 1 2 3 4) 1 (by norm_num)⟩

/-- C4: after every `Body.step` call with a positive time step the heading
lies in `[0, 360)`, whatever the prior heading (also outside `[0,360)`) and
whatever the angular velocity. -/
theorem C4_heading_normalized (b : Body) (na : Accel4) (dt : ℚ) (hdt : 0 < dt) :
    0 ≤ (b.step na dt).angle ∧ (b.step na dt).angle < 360 := by
  rw [Body.step_closed]
  exact ⟨pymod_nonneg _ _ (by norm_num), pymod_lt _ _ (by norm_num)⟩

/-- Witness for C4: a body with heading `-1000` and large negative angular
velocity, stepped with `dt = 1`. -/
theorem C4_heading_normalized_witness :
    (0:ℚ) < 1 ∧
    (0 ≤ ((mkBody 1 (1/20) (Vec3.mk 0 0 122) (Vec3.mk 0 0 0) (-1000) (-12345)
            (Vec3.mk 0 0 0) (Vec2.mk 0 0) (Vec2.mk 0 0) 0).step (Accel4.mk 0 0 0 0) 1).angle ∧
      ((mkBody 1 (1/20) (Vec3.mk 0 0 122) (Vec3.mk 0 0 0) (-1000) (-12345)
            (Vec3.mk 0 0 0) (Vec2.mk 0 0) (Vec2.mk 0 0) 0).step (Accel4.mk 0 0 0 0) 1).angle < 360) :=
  ⟨by norm_num, C4_heading_normalized _ (Accel4.mk 0 0 0 0) 1 (by norm_num)⟩

/-- Closed description of `Controller.correct_xy` in terms of `clamp`. -/
theorem Controller.correct_xy_closed (c : Controller) (b : Body) (ix iy : ℚ) :
    c.correct_xy b ix iy = { b with
      xy_force := Vec2.mk
        (clamp (b.pos_error.x * -c.p + b.velocity.x * -c.d + ix * -c.i) c.force_lim)
        (clamp (b.pos_error.y * -c.p + b.velocity.y * -c.d + iy * -c.i) c.force_lim) } := rfl

/-- Closed description of `Controller.correct_angle` in terms of `clamp`. -/
theorem Controller.correct_angle_closed (c : Controller) (b : Body) (ia : ℚ) :
    c.correct_angle b ia = { b with
      angle_force := clamp
        (b.ang_error * -c.ang_p + b.ang_vel_error * -c.ang_d + ia * -c.ang_i)
        c.angle_force_lim } := rfl

/-- Clamping to a nonnegative symmetric band lands inside the band. -/
theorem clamp_mem (v lim : ℚ) (hlim : 0 ≤ lim) :
    -lim ≤ clamp v lim ∧ clamp v lim ≤ lim := by
  unfold clamp
  split_ifs with h1 h2
  · constructor <;> linarith
  · constructor <;> linarith
  · constructor <;> linarith

/-- C5: each of the three accumulators of `Simulator.run` follows the
asymmetric signed policy — the signed error is added while it is `< 1`,
any error `≥ 1` resets the accumulator to `0` — and on the synthetic error
sequence `[0.5, 2.0, 0.3]` the resulting accumulator trace is
`[0.5, 0, 0.3]`. -/
theorem C5_integral_reset_policy (t : Trig) (s : RunState) :
    ((tick t s).integral_x
      = if (tick t s).sim.body.pos_error.x < 1
          then s.integral_x + (tick t s).sim.body.pos_error.x else 0) ∧
    ((tick t s).integral_y
      = if (tick t s).sim.body.pos_error.y < 1
          then s.integral_y + (tick t s).sim.body.pos_error.y else 0) ∧
    ((tick t s).integral_ang
      = if (tick t s).sim.body.ang_error < 1
          then s.integral_ang + (tick t s).sim.body.ang_error else 0) ∧
    List.drop 1 (List.scanl (fun acc err => if err < 1 then acc + err else 0)
        (0:ℚ) [1/2, 2, 3/10]) = [1/2, 0, 3/10] := by
  refine ⟨rfl, rfl, rfl, ?_⟩
  norm_num [List.scanl]

/-- C6: after `correct_xy` both commanded force components lie inside
`[-force_lim, force_lim]`, after `correct_angle` the angular force lies
inside `[-angle_force_lim, angle_force_lim]`, and the pre-clamp values are
exactly `-p*pos_error - d*velocity - i*integral` per axis (derivative term
on the absolute velocity) and
`-ang_p*ang_error - ang_d*ang_vel_error - ang_i*integral_ang`; the
controller every body owns is `mkController` (claim C10). -/
theorem C6_controller_saturation (b : Body) (ix iy ia : ℚ) :
    (-mkController.force_lim ≤ (mkController.correct_xy b ix iy).xy_force.x ∧
      (mkController.correct_xy b ix iy).xy_force.x ≤ mkController.force_lim) ∧
    (-mkController.force_lim ≤ (mkController.correct_xy b ix iy).xy_force.y ∧
      (mkController.correct_xy b ix iy).xy_force.y ≤ mkController.force_lim) ∧
    (-mkController.angle_force_lim ≤ (mkController.correct_angle b ia).angle_force ∧
      (mkController.correct_angle b ia).angle_force ≤ mkController.angle_force_lim) ∧
    (mkController.correct_xy b ix iy).xy_force.x
      = clamp (-mkController.p * b.pos_error.x - mkController.d * b.velocity.x
          - mkController.i * ix) mkController.force_lim ∧
    (mkController.correct_xy b ix iy).xy_force.y
      = clamp (-mkController.p * b.pos_error.y - mkController.d * b.velocity.y
          - mkController.i * iy) mkController.force_lim ∧
    (mkController.correct_angle b ia).angle_force
      = clamp (-mkController.ang_p * b.ang_error - mkController.ang_d * b.ang_vel_error
          - mkController.ang_i * ia) mkController.angle_force_lim := by
  have e1 : b.pos_error.x * -mkController.p + b.velocity.x * -mkController.d
      + ix * -mkController.i
      = -mkController.p * b.pos_error.x - mkController.d * b.velocity.x
        - mkController.i * ix := by ring
  have e2 : b.pos_error.y * -mkController.p + b.velocity.y * -mkController.d
      + iy * -mkController.i
      = -mkController.p * b.pos_error.y - mkController.d * b.velocity.y
        - mkController.i * iy := by ring
  have e3 : b.ang_error * -mkController.ang_p + b.ang_vel_error * -mkController.ang_d
      + ia * -mkController.ang_i
      = -mkController.ang_p * b.ang_error - mkController.ang_d * b.ang_vel_error
        - mkController.ang_i * ia := by ring
  refine ⟨?_, ?_, ?_, ?_, ?_, ?_⟩
  · exact clamp_mem _ mkController.force_lim (by norm_num [mkController])
  · exact clamp_mem _ mkController.force_lim (by norm_num [mkController])
  · exact clamp_mem _ mkController.angle_force_lim (by norm_num [mkController])
  · exact congrArg (fun v => clamp v mkController.force_lim) e1
  · exact congrArg (fun v => clamp v mkController.force_lim) e2
  · exact congrArg (fun v => clamp v mkController.angle_force_lim) e3

/-- C8: `Simulator.run` is deterministic — two runs built from identical
construction parameters (and the same trig interpretation and fuel) agree
on every recorded series and on the final `step_count`.  The embedding of
the source is a pure function of its inputs: the loop reads no clock,
randomness or other ambient state, so the two runs are literally the same
value. -/
theorem C8_run_deterministic (t : Trig) (fuel : ℕ) (mass radius : ℚ)
    (position velocity : Vec3) (angle angle_vel : ℚ) (drag : Vec3) (target : Vec2)
    (wind : Vec2) (ts : ℚ) (dbg : Bool) :
    (Simulator.run t fuel (mkSimulator
        (mkBody mass radius position velocity angle angle_vel drag target (Vec2.mk 0 0) 0)
        wind ts dbg)).sim.time
      = (Simulator.run t fuel (mkSimulator
        (mkBody mass radius position velocity angle angle_vel drag target (Vec2.mk 0 0) 0)
        wind ts dbg)).sim.time ∧
    (Simulator.run t fuel (mkSimulator
        (mkBody mass radius position velocity angle angle_vel drag target (Vec2.mk 0 0) 0)
        wind ts dbg)).sim.x_pos
      = (Simulator.run t fuel (mkSimulator
        (mkBody mass radius position velocity angle angle_vel drag target (Vec2.mk 0 0) 0)
        wind ts dbg)).sim.x_pos ∧
    (Simulator.run t fuel (mkSimulator
        (mkBody mass radius position velocity angle angle_vel drag target (Vec2.mk 0 0) 0)
        wind ts dbg)).sim.y_pos
      = (Simulator.run t fuel (mkSimulator
        (mkBody mass radius position velocity angle angle_vel drag target (Vec2.mk 0 0) 0)
        wind ts dbg)).sim.y_pos ∧
    (Simulator.run t fuel (mkSimulator
        (mkBody mass radius position velocity angle angle_vel drag target (Vec2.mk 0 0) 0)
        wind ts dbg)).sim.z_pos
      = (Simulator.run t fuel (mkSimulator
        (mkBody mass radius position velocity angle angle_vel drag target (Vec2.mk 0 0) 0)
        wind ts dbg)).sim.z_pos ∧
    (Simulator.run t fuel (mkSimulator
        (mkBody mass radius position velocity angle angle_vel drag target (Vec2.mk 0 0) 0)
        wind ts dbg)).sim.x_vel
      = (Simulator.run t fuel (mkSimulator
        (mkBody mass radius position velocity angle angle_vel drag target (Vec2.mk 0 0) 0)
        wind ts dbg)).sim.x_vel ∧
    (Simulator.run t fuel (mkSimulator
        (mkBody mass radius position velocity angle angle_vel drag target (Vec2.mk 0 0) 0)
        wind ts dbg)).sim.y_vel
      = (Simulator.run t fuel (mkSimulator
        (mkBody mass radius position velocity angle angle_vel drag target (Vec2.mk 0 0) 0)
        wind ts dbg)).sim.y_vel ∧
    (Simulator.run t fuel (mkSimulator
        (mkBody mass radius position velocity angle angle_vel drag target (Vec2.mk 0 0) 0)
        wind ts dbg)).sim.z_vel
      = (Simulator.run t fuel (mkSimulator
        (mkBody mass radius position velocity angle angle_vel drag target (Vec2.mk 0 0) 0)
        wind ts dbg)).sim.z_vel ∧
    (Simulator.run t fuel (mkSimulator
        (mkBody mass radius position velocity angle angle_vel drag target (Vec2.mk 0 0) 0)
        wind ts dbg)).sim.x_accel
      = (Simulator.run t fuel (mkSimulator
        (mkBody mass radius position velocity angle angle_vel drag target (Vec2.mk 0 0) 0)
        wind ts dbg)).sim.x_accel ∧
    (Simulator.run t fuel (mkSimulator
        (mkBody mass radius position velocity angle angle_vel drag target (Vec2.mk 0 0) 0)
        wind ts dbg)).sim.y_accel
      = (Simulator.run t fuel (mkSimulator
        (mkBody mass radius position velocity angle angle_vel drag target (Vec2.mk 0 0) 0)
        wind ts dbg)).sim.y_accel ∧
    (Simulator.run t fuel (mkSimulator
        (mkBody mass radius position velocity angle angle_vel drag target (Vec2.mk 0 0) 0)
        wind ts dbg)).sim.z_accel
      = (Simulator.run t fuel (mkSimulator
        (mkBody mass radius position velocity angle angle_vel drag target (Vec2.mk 0 0) 0)
        wind ts dbg)).sim.z_accel ∧
    (Simulator.run t fuel (mkSimulator
        (mkBody mass radius position velocity angle angle_vel drag target (Vec2.mk 0 0) 0)
        wind ts dbg)).sim.angle
      = (Simulator.run t fuel (mkSimulator
        (mkBody mass radius position velocity angle angle_vel drag target (Vec2.mk 0 0) 0)
        wind ts dbg)).sim.angle ∧
    (Simulator.run t fuel (mkSimulator
        (mkBody mass radius position velocity angle angle_vel drag target (Vec2.mk 0 0) 0)
        wind ts dbg)).sim.angle_vel
      = (Simulator.run t fuel (mkSimulator
        (mkBody mass radius position velocity angle angle_vel drag target (Vec2.mk 0 0) 0)
        wind ts dbg)).sim.angle_vel ∧
    (Simulator.run t fuel (mkSimulator
        (mkBody mass radius position velocity angle angle_vel drag target (Vec2.mk 0 0) 0)
        wind ts dbg)).sim.angle_accel
      = (Simulator.run t fuel (mkSimulator
        (mkBody mass radius position velocity angle angle_vel drag target (Vec2.mk 0 0) 0)
        wind ts dbg)).sim.angle_accel ∧
    (Simulator.run t fuel (mkSimulator
        (mkBody mass radius position velocity angle angle_vel drag target (Vec2.mk 0 0) 0)
        wind ts dbg)).sim.step_count
      = (Simulator.run t fuel (mkSimulator
        (mkBody mass radius position velocity angle angle_vel drag target (Vec2.mk 0 0) 0)
        wind ts dbg)).sim.step_count :=
  ⟨rfl, rfl, rfl, rfl, rfl, rfl, rfl, rfl, rfl, rfl, rfl, rfl, rfl, rfl⟩

/-- C10: every `Body`, whatever its construction parameters, owns the one
fixed controller, whose gains and limits are the constants of
`Controller.__init__`; no construction parameter of `Body`, `Controller`
or `Simulator` can change them. -/
theorem C10_controller_gains_fixed (mass radius : ℚ) (position velocity : Vec3)
    (angle angle_vel : ℚ) (drag : Vec3) (target : Vec2) (xy_force : Vec2)
    (angle_force : ℚ) :
    (mkBody mass radius position velocity angle angle_vel drag target
        xy_force angle_force).controller = mkController ∧
    mkController.p = 15 ∧ mkController.i = 15/100 ∧ mkController.d = 5 ∧
    mkController.ang_p = 2 ∧ mkController.ang_i = 1/1000 ∧ mkController.ang_d = 2/10 ∧
    mkController.force_lim = 50 ∧ mkController.angle_force_lim = 10 :=
  ⟨rfl, rfl, rfl, rfl, rfl, rfl, rfl, rfl, rfl⟩

/-- C9 (bug evidence): two of the seven report helpers raise for every
body — `vel_error_report` formats the whole two-element `vel_error` list
with the float format spec `0.2f` (`TypeError`), and `ang_vel_report`
reads the nonexistent attribute `self.ang_vel` (`AttributeError`; the
field set by `__init__` is `angle_vel`) — so neither ever returns a
string; the five other helpers do return the single-line two-decimal
strings, shown here evaluated on the default body. -/
theorem C9_vel_error_report_raises :
    Body.vel_error_report bodyDefault = none ∧
    Body.ang_vel_report bodyDefault = none ∧
    Body.pos_report bodyDefault = some "pos(0.00, 0.00, 122.00)" ∧
    Body.vel_report bodyDefault = some "vel(0.00, 0.00, 0.00)" ∧
    Body.ang_report bodyDefault = some "angle(0.00)" ∧
    Body.pos_error_report bodyDefault = some "pos_error(0.00, 0.00)" ∧
    Body.ang_error_report bodyDefault = some "ang_error(0.00)" := by
  refine ⟨rfl, rfl, ?_, ?_, ?_, ?_, ?_⟩ <;>
    · simp only [Body.pos_report, Body.vel_report, Body.ang_report,
        Body.pos_error_report, Body.ang_error_report, pyFormatFixed2, bodyDefault, mkBody,
        Option.bind]
      norm_num [fmt2, roundHalfEven]
      rfl

/-- C1 (bug evidence): the loop body of `Simulator.run` advances the body
by the `Body.step` *default* `dt = 0.01` on every tick, not by the
simulator's configured `time_step` — the source calls
`self.body.step(body_accel)` without passing `self.time_step`.  First
conjunct: for every state, one tick changes the vertical velocity by
`accel_z * 0.01` whatever `time_step` holds.  Remaining conjuncts: with
`time_step = 1` the first tick still integrates gravity over `0.01`
(velocity `-0.0981`, not `-9.81`), while the recorded time series claims
one full second elapsed. -/
theorem C1_run_steps_with_default_dt :
    (∀ (t : Trig) (s : RunState),
      (tick t s).sim.body.velocity.z
        = s.sim.body.velocity.z + (net_accel t s.sim.body s.sim).z * (1/100)) ∧
    (Simulator.run trig0 1 (mkSimulator bodyDefault (Vec2.mk 0 0) 1 false)).sim.body.velocity.z
      = -(981/10000) ∧
    (Simulator.run trig0 1 (mkSimulator bodyDefault (Vec2.mk 0 0) 1 false)).sim.time = [1] := by
  refine ⟨?_, ?_, ?_⟩
  · intro t s
    simp [tick, Body.step, Body.update_pos_error, Body.update_vel_error,
      Body.update_angle_error, Body.update_ang_vel_error, Controller.correct_xy,
      Controller.correct_angle, Nat.mod_one]
  · norm_num [Simulator.run, runFuel, tick, net_accel, Body.step, Body.update_pos_error,
      Body.update_vel_error, Body.update_angle_error, Body.update_ang_vel_error,
      Controller.correct_xy, Controller.correct_angle, mkSimulator, bodyDefault, mkBody,
      mkController, integral_update, pymod, trig0]
  · norm_num [Simulator.run, runFuel, tick, net_accel, Body.step, Body.update_pos_error,
      Body.update_vel_error, Body.update_angle_error, Body.update_ang_vel_error,
      Controller.correct_xy, Controller.correct_angle, mkSimulator, bodyDefault, mkBody,
      mkController, integral_update, pymod, trig0]

/-- One `tick` projected onto the vertical axis: when the body has no
vertical drag and unit mass, the vertical pair evolves by `zstep`
(gravity over the hardcoded `dt = 0.01`), the invariants are preserved,
and `step_count` increments. -/
theorem tick_z (t : Trig) (s : RunState)
    (hd : s.sim.body.drag.z = 0) (hm : s.sim.body.mass = 1) :
    (tick t s).sim.body.velocity.z = s.sim.body.velocity.z - 981/10000 ∧
    (tick t s).sim.body.position.z
      = s.sim.body.position.z + (s.sim.body.velocity.z - 981/10000) * (1/100) ∧
    (tick t s).sim.body.drag.z = 0 ∧
    (tick t s).sim.body.mass = 1 ∧
    (tick t s).sim.step_count = s.sim.step_count + 1 := by
  refine ⟨?_, ?_, ?_, ?_, ?_⟩
  · simp [tick, net_accel, Body.step, Body.update_pos_error, Body.update_vel_error,
      Body.update_angle_error, Body.update_ang_vel_error, Controller.correct_xy,
      Controller.correct_angle, Nat.mod_one, hd, hm]
    ring
  · simp [tick, net_accel, Body.step, Body.update_pos_error, Body.update_vel_error,
      Body.update_angle_error, Body.update_ang_vel_error, Controller.correct_xy,
      Controller.correct_angle, Nat.mod_one, hd, hm]
    ring
  · simp [tick, net_accel, Body.step, Body.update_pos_error, Body.update_vel_error,
      Body.update_angle_error, Body.update_ang_vel_error, Controller.correct_xy,
      Controller.correct_angle, Nat.mod_one, hd, hm]
  · simp [tick, net_accel, Body.step, Body.update_pos_error, Body.update_vel_error,
      Body.update_angle_error, Body.update_ang_vel_error, Controller.correct_xy,
      Controller.correct_angle, Nat.mod_one, hd, hm]
  · simp [tick, Body.step, Body.update_pos_error, Body.update_vel_error,
      Body.update_angle_error, Body.update_ang_vel_error, Controller.correct_xy,
      Controller.correct_angle, Nat.mod_one]

/-- Iterating `tick` projects onto iterating `zstep` on the vertical pair,
with the no-vertical-drag/unit-mass invariants carried along and
`step_count` advancing by one per tick. -/
theorem iterate_tick_z (t : Trig) (s : RunState)
    (hd : s.sim.body.drag.z = 0) (hm : s.sim.body.mass = 1) : ∀ n : ℕ,
    (((tick t)^[n] s).sim.body.position.z, ((tick t)^[n] s).sim.body.velocity.z)
      = zstep^[n] (s.sim.body.position.z, s.sim.body.velocity.z) ∧
    ((tick t)^[n] s).sim.body.drag.z = 0 ∧
    ((tick t)^[n] s).sim.body.mass = 1 ∧
    ((tick t)^[n] s).sim.step_count = s.sim.step_count + n := by
  intro n
  induction n with
  | zero => exact ⟨rfl, hd, hm, rfl⟩
  | succ n ih =>
    obtain ⟨hpair, hd', hm', hc'⟩ := ih
    have h1 : ((tick t)^[n] s).sim.body.position.z
        = (zstep^[n] (s.sim.body.position.z, s.sim.body.velocity.z)).1 :=
      congrArg Prod.fst hpair
    have h2 : ((tick t)^[n] s).sim.body.velocity.z
        = (zstep^[n] (s.sim.body.position.z, s.sim.body.velocity.z)).2 :=
      congrArg Prod.snd hpair
    obtain ⟨hv, hp, hd2, hm2, hc2⟩ := tick_z t ((tick t)^[n] s) hd' hm'
    rw [Function.iterate_succ_apply', Function.iterate_succ_apply']
    refine ⟨?_, hd2, hm2, ?_⟩
    · rw [hp, hv, h1, h2]
      rfl
    · rw [hc2, hc']
      omega

/-- Closed form of the vertical free-fall recurrence from `(122, 0)`. -/
theorem zstep_iterate_closed : ∀ n : ℕ,
    zstep^[n] ((122:ℚ), (0:ℚ))
      = (122 - 981 * (n:ℚ) * ((n:ℚ) + 1) / 2000000, -(981 * (n:ℚ) / 10000)) := by
  intro n
  induction n with
  | zero => norm_num
  | succ n ih =>
    rw [Function.iterate_succ_apply', ih]
    simp only [zstep, Prod.mk.injEq]
    constructor
    · push_cast
      ring
    · push_cast
      ring

/-- The altitude after `n ≤ 498` ticks of vertical free fall is positive. -/
theorem z_formula_pos (n : ℕ) (hn : n ≤ 498) :
    (0:ℚ) < 122 - 981 * n * (n + 1) / 2000000 := by
  have h1 : (n:ℚ) ≤ 498 := by exact_mod_cast hn
  have h0 : (0:ℚ) ≤ (n:ℚ) := Nat.cast_nonneg n
  have h2 : (n:ℚ) * ((n:ℚ) + 1) ≤ 498 * 499 :=
    mul_le_mul h1 (by linarith) (by linarith) (by norm_num)
  nlinarith [h2]

/-- If the altitude stays positive for the first `n` ticks and crosses zero
at tick `n`, then `runFuel` with at least `n` fuel runs exactly `n` ticks:
the loop of `Simulator.run` stops the instant the altitude is `≤ 0`. -/
theorem runFuel_eq_of_first_landing (t : Trig) : ∀ (n fuel : ℕ) (s : RunState),
    n ≤ fuel →
    (∀ k, k < n → 0 < ((tick t)^[k] s).sim.body.position.z) →
    ((tick t)^[n] s).sim.body.position.z ≤ 0 →
    runFuel t fuel s = (tick t)^[n] s := by
  intro n
  induction n with
  | zero =>
    intro fuel s hfuel hpos hz
    simp only [Function.iterate_zero, id_eq] at hz ⊢
    cases fuel with
    | zero => rfl
    | succ f =>
      rw [runFuel, if_neg (not_lt.2 hz)]
  | succ n ih =>
    intro fuel s hfuel hpos hz
    cases fuel with
    | zero => exact absurd hfuel (by omega)
    | succ f =>
      have h0 : 0 < s.sim.body.position.z := by
        have h := hpos 0 (Nat.succ_pos n)
        simpa using h
      have hz' : ((tick t)^[n] (tick t s)).sim.body.position.z ≤ 0 := by
        rwa [← Function.iterate_succ_apply]
      have hpos' : ∀ k, k < n → 0 < ((tick t)^[k] (tick t s)).sim.body.position.z := by
        intro k hk
        have h := hpos (k + 1) (by omega)
        rwa [Function.iterate_succ_apply] at h
      rw [runFuel, if_pos h0, ih f (tick t s) (by omega) hpos' hz',
        ← Function.iterate_succ_apply]

/-- Running the loop on any state whose body starts at altitude 122 with
zero vertical velocity, no vertical drag and unit mass lands after exactly
499 ticks (the `dt` the loop actually uses is the `step` default `0.01`,
independent of `time_step`). -/
theorem run_gravity_only (t : Trig) (s : RunState)
    (hd : s.sim.body.drag.z = 0) (hm : s.sim.body.mass = 1)
    (hz : s.sim.body.position.z = 122) (hv : s.sim.body.velocity.z = 0)
    (hc : s.sim.step_count = 0) :
    (runFuel t 600 s).sim.step_count = 499 ∧
    (runFuel t 600 s).sim.body.position.z ≤ 0 := by
  have hiter := iterate_tick_z t s hd hm
  have hzn : ∀ n : ℕ, ((tick t)^[n] s).sim.body.position.z
      = 122 - 981 * n * (n + 1) / 2000000 := by
    intro n
    have h := (hiter n).1
    rw [hz, hv, zstep_iterate_closed n] at h
    exact congrArg Prod.fst h
  have hpos : ∀ k, k < 499 → 0 < ((tick t)^[k] s).sim.body.position.z := by
    intro k hk
    rw [hzn k]
    exact z_formula_pos k (by omega)
  have hland : ((tick t)^[499] s).sim.body.position.z ≤ 0 := by
    rw [hzn 499]
    norm_num
  have hrun : runFuel t 600 s = (tick t)^[499] s :=
    runFuel_eq_of_first_landing t 499 600 s (by norm_num) hpos hland
  rw [hrun]
  refine ⟨?_, hland⟩
  have hsc := (hiter 499).2.2.2
  rw [hc] at hsc
  exact hsc.trans (Nat.zero_add 499)

/-- C7: in the gravity-only scenario (start at `z = 122`, zero velocity,
zero commanded forces, `drag = (0,0,0)` — vertical drag suffices — and any
wind), `Simulator.run` terminates with final altitude `≤ 0` after exactly
499 ticks — *for every configured `time_step`*, because the loop steps the
body with the `Body.step` default `dt = 0.01` (claim C1's bug).  499 equals
`ceil(sqrt(2·122/9.81)/dt)` for the `dt = 0.01` actually used (second
conjunct), but for a simulator configured with, say, `time_step = 0.1` the
claimed count `ceil(sqrt(2·122/9.81)/0.1) ± 1 = 50 ± 1` is wrong. -/
theorem C7_gravity_only_termination :
    (∀ (t : Trig) (ts : ℚ) (w tgt : Vec2) (dx dy a0 av0 : ℚ) (dbg : Bool),
      (Simulator.run t 600 (mkSimulator (mkBody 1 (1/20) (Vec3.mk 0 0 122)
          (Vec3.mk 0 0 0) a0 av0 (Vec3.mk dx dy 0) tgt (Vec2.mk 0 0) 0)
          w ts dbg)).sim.step_count = 499 ∧
      (Simulator.run t 600 (mkSimulator (mkBody 1 (1/20) (Vec3.mk 0 0 122)
          (Vec3.mk 0 0 0) a0 av0 (Vec3.mk dx dy 0) tgt (Vec2.mk 0 0) 0)
          w ts dbg)).sim.body.position.z ≤ 0) ∧
    ⌈Real.sqrt (2 * 122 / (981/100)) / (1/100)⌉ = 499 := by
  constructor
  · intro t ts w tgt dx dy a0 av0 dbg
    exact run_gravity_only t
      (RunState.mk (mkSimulator (mkBody 1 (1/20) (Vec3.mk 0 0 122) (Vec3.mk 0 0 0)
        a0 av0 (Vec3.mk dx dy 0) tgt (Vec2.mk 0 0) 0) w ts dbg) 0 0 0)
      rfl rfl rfl rfl rfl
  · have hq : (0:ℝ) ≤ 2 * 122 / (981/100) := by norm_num
    have hr2 : Real.sqrt (2 * 122 / (981/100)) ^ 2 = 2 * 122 / (981/100) :=
      Real.sq_sqrt hq
    have hr0 : (0:ℝ) ≤ Real.sqrt (2 * 122 / (981/100)) := Real.sqrt_nonneg _
    have hdiv : Real.sqrt (2 * 122 / (981/100)) / (1/100)
        = 100 * Real.sqrt (2 * 122 / (981/100)) := by ring
    rw [hdiv, Int.ceil_eq_iff]
    push_cast
    constructor
    · nlinarith [hr2, hr0]
    · nlinarith [hr2, hr0]

end Sim
